import Mathlib

/-!
Verification of the Mario-style platformer core found in `code.py` of the
CIRCUITPY-Workshop-Facilitator repository.  The game's entity physics,
collision resolution, input controller, camera, coin/enemy interaction
resolver and session state machine are shallowly embedded as executable
Lean functions over exact rational coordinates, and the testable
properties of the specification are proved or refuted against them.
-/

namespace SMB

/-! ## Game constants (from the top of `code.py`) -/

def DISPLAY_WIDTH : ℚ := 240
def DISPLAY_HEIGHT : ℚ := 135
def GRAVITY : ℚ := 3/5
def JUMP_STRENGTH : ℚ := -10
def MOVE_SPEED : ℚ := 5/2
def RUN_SPEED : ℚ := 9/2
def GROUND_Y : ℚ := 105
def TILT_DEADZONE : ℚ := 4/5
def TILT_MAX : ℚ := 6
def MARIO_WIDTH : ℚ := 16
def MARIO_HEIGHT : ℚ := 16
def ENEMY_WIDTH : ℚ := 16
def ENEMY_HEIGHT : ℚ := 16
def BLOCK_SIZE : ℚ := 16

/-! ## Data model -/

structure Platform where
  x : ℚ
  y : ℚ
  width : ℚ
  height : ℚ
  block_type : String
deriving DecidableEq, Repr

structure Coin where
  x : ℚ
  y : ℚ
  collected : Bool
deriving DecidableEq, Repr

structure EnemyState where
  x : ℚ
  y : ℚ
  width : ℚ
  height : ℚ
  vel_x : ℚ
  vel_y : ℚ
  alive : Bool
  on_ground : Bool
  sprite_frame : ℤ
  frame_counter : ℕ
deriving DecidableEq, Repr

structure MarioState where
  x : ℚ
  y : ℚ
  vel_x : ℚ
  vel_y : ℚ
  on_ground : Bool
  facing_right : Bool
  width : ℚ
  height : ℚ
  is_running : Bool
  invincible : ℕ
  sprite_frame : ℕ
  anim_counter : ℕ
  jump_triggered : Bool
deriving DecidableEq, Repr

structure CameraState where
  x : ℚ
  target_x : ℚ
  smoothing : ℚ
deriving DecidableEq, Repr

structure ImuState where
  offset_x : ℚ
  prev_jump : Bool
  jump_buffer : Bool
  jump_buffer_frames : ℤ
  left : Bool
  right : Bool
  jump : Bool
  run : Bool
  tilt_value : ℚ
  touch_available : Bool
deriving DecidableEq, Repr

/-! ## Camera (`Camera.update`) -/

def cameraInit : CameraState :=
  { x := 0, target_x := 0, smoothing := 1/5 }

/-- Embedding of `Camera.update(mario_x)`: target follows Mario offset by a third of the
viewport, clamped to `[0, 2200 - DISPLAY_WIDTH]`; the offset moves toward the
target by the smoothing fraction of the remaining distance. -/
def cameraUpdate (c : CameraState) (mario_x : ℚ) : CameraState :=
  let t1 := mario_x - DISPLAY_WIDTH / 3
  let t2 := max 0 (min t1 (2200 - DISPLAY_WIDTH))
  { x := c.x + (t2 - c.x) * c.smoothing, target_x := t2, smoothing := c.smoothing }

/-- Run the camera from its initial state over a whole sequence of player x
positions, one `Camera.update` per frame. -/
def cameraRun (xs : List ℚ) : CameraState :=
  xs.foldl cameraUpdate cameraInit

lemma cameraUpdate_smoothing (c : CameraState) (mx : ℚ) :
    (cameraUpdate c mx).smoothing = c.smoothing := rfl

lemma cameraUpdate_bounds (c : CameraState) (mx : ℚ)
    (hs : c.smoothing = 1/5) (h0 : 0 ≤ c.x) (h1 : c.x ≤ 2200 - DISPLAY_WIDTH) :
    0 ≤ (cameraUpdate c mx).x ∧ (cameraUpdate c mx).x ≤ 2200 - DISPLAY_WIDTH := by
  unfold cameraUpdate
  simp only
  set t := max 0 (min (mx - DISPLAY_WIDTH / 3) (2200 - DISPLAY_WIDTH)) with ht
  have ht0 : 0 ≤ t := le_max_left _ _
  have ht1 : t ≤ 2200 - DISPLAY_WIDTH := by
    rw [ht]
    apply max_le
    · norm_num [DISPLAY_WIDTH]
    · exact min_le_right _ _
  rw [hs]
  constructor
  · nlinarith
  · nlinarith

lemma cameraRun_invariant (xs : List ℚ) (c : CameraState)
    (hs : c.smoothing = 1/5) (h0 : 0 ≤ c.x) (h1 : c.x ≤ 2200 - DISPLAY_WIDTH) :
    0 ≤ (xs.foldl cameraUpdate c).x ∧
      (xs.foldl cameraUpdate c).x ≤ 2200 - DISPLAY_WIDTH := by
  induction xs generalizing c with
  | nil => exact ⟨h0, h1⟩
  | cons mx rest ih =>
    have hb := cameraUpdate_bounds c mx hs h0 h1
    exact ih (cameraUpdate c mx) (by rw [cameraUpdate_smoothing, hs]) hb.1 hb.2

/-! ## AABB collision test (`check_collision`) -/

def check_collision (x1 y1 w1 h1 x2 y2 w2 h2 : ℚ) : Bool :=
  decide (x1 < x2 + w2) && decide (x1 + w1 > x2) &&
  decide (y1 < y2 + h2) && decide (y1 + h1 > y2)

/-! ## Mario physics (`Mario.update` and `Mario.check_platform_collision`) -/

def marioInit : MarioState :=
  { x := 40, y := GROUND_Y, vel_x := 0, vel_y := 0, on_ground := false,
    facing_right := true, width := MARIO_WIDTH, height := MARIO_HEIGHT,
    is_running := false, invincible := 0, sprite_frame := 0,
    anim_counter := 0, jump_triggered := false }

/-- Embedding of `Mario.check_platform_collision(platform, prev_y)`: AABB overlap of the
post-move player box against the platform, resolving either a landing on top
or a bump from below; returns the resolved state and whether a collision was
applied (the caller breaks out of its platform loop on `true`). -/
def marioCheckPlatformCollision (m : MarioState) (p : Platform) (prev_y : ℚ) :
    MarioState × Bool :=
  if m.x + m.width > p.x ∧ m.x < p.x + p.width ∧
      m.y + m.height > p.y ∧ m.y < p.y + p.height then
    if prev_y + m.height ≤ p.y ∧ m.vel_y > 0 then
      ({ m with y := p.y - m.height, vel_y := 0, on_ground := true,
                jump_triggered := false }, true)
    else if prev_y ≥ p.y + p.height ∧ m.vel_y < 0 then
      ({ m with y := p.y + p.height, vel_y := 0 }, true)
    else (m, false)
  else (m, false)

/-- The platform loop of `Mario.update`: platforms whose x and y are both more
than 150 away are skipped, and the loop breaks at the first applied
collision. -/
def marioResolvePlatforms (m : MarioState) (prev_y : ℚ) :
    List Platform → MarioState
  | [] => m
  | p :: ps =>
    if |p.x - m.x| > 150 ∧ |p.y - m.y| > 150 then
      marioResolvePlatforms m prev_y ps
    else
      let r := marioCheckPlatformCollision m p prev_y
      if r.2 then r.1 else marioResolvePlatforms m prev_y ps

/-- The control/jump/gravity phase of `Mario.update`, before position
integration: invincibility decrement, tilt-driven velocity with walk
animation, exponential deceleration toward zero on neutral tilt, jump
initiation, airborne sprite, and capped gravity. -/
def marioMovePhase (m : MarioState) (ctrl : ImuState) : MarioState :=
  let m := if 0 < m.invincible then { m with invincible := m.invincible - 1 } else m
  let m :=
    if ctrl.tilt_value ≠ 0 then
      let move_speed := if ctrl.run = true then RUN_SPEED else MOVE_SPEED
      let m := { m with vel_x := ctrl.tilt_value * move_speed,
                        facing_right := ctrl.tilt_value > 0 }
      if m.on_ground = true then
        let ac := m.anim_counter + 1
        if ac > 5 then
          { m with sprite_frame := if m.sprite_frame = 0 then 1 else 0,
                   anim_counter := 0 }
        else { m with anim_counter := ac }
      else m
    else
      let vx := m.vel_x * (4/5)
      let vx := if |vx| < 1/10 then 0 else vx
      { m with vel_x := vx, sprite_frame := 0 }
  let m :=
    if ctrl.jump = true ∧ m.on_ground = true then
      { m with vel_y := JUMP_STRENGTH, jump_triggered := true, on_ground := false }
    else m
  let m := if m.on_ground = false then { m with sprite_frame := 2 } else m
  let m :=
    if m.on_ground = false then
      let vy := m.vel_y + GRAVITY
      { m with vel_y := if vy > 10 then 10 else vy }
    else m
  m

/-- The hard ground plane at the end of `Mario.update`. -/
def marioGroundClamp (m : MarioState) : MarioState :=
  if m.y ≥ GROUND_Y then
    { m with y := GROUND_Y, vel_y := 0, on_ground := true, jump_triggered := false }
  else m

/-- Embedding of `Mario.update(imu_control, platforms)`. -/
def marioUpdate (m : MarioState) (ctrl : ImuState) (platforms : List Platform) :
    MarioState :=
  let prev_y := m.y
  let m1 := marioMovePhase m ctrl
  let m2 := { m1 with x := m1.x + m1.vel_x, y := m1.y + m1.vel_y }
  marioGroundClamp (marioResolvePlatforms { m2 with on_ground := false } prev_y platforms)

lemma marioGroundClamp_y_le (m : MarioState) : (marioGroundClamp m).y ≤ GROUND_Y := by
  unfold marioGroundClamp
  split
  · rfl
  · next h => exact le_of_lt (lt_of_not_ge h)

lemma marioUpdate_y_le (m : MarioState) (ctrl : ImuState) (ps : List Platform) :
    (marioUpdate m ctrl ps).y ≤ GROUND_Y := by
  unfold marioUpdate
  exact marioGroundClamp_y_le _

/-- Claim C1: for a platform collision during `Mario.update`: if the player's
previous bottom edge satisfies `prev_bottom <= platform_top`, the vertical
velocity satisfies `vel_y >= 0`, and the post-move bounding boxes of player
and platform overlap, then the resolved player `y` equals
`platform_top - player_height` and the resolved `vel_y` equals `0`.  The
hypothesis `m.y = prev_y + m.vel_y` records that at every call site the
position has just been integrated from `prev_y` by `vel_y` (the loop breaks
before any further call once a collision is applied). -/
theorem landing_collision_resolution (m : MarioState) (p : Platform) (prev_y : ℚ)
    (hmove : m.y = prev_y + m.vel_y)
    (hprev : prev_y + m.height ≤ p.y)
    (hvel : 0 ≤ m.vel_y)
    (hov : m.x + m.width > p.x ∧ m.x < p.x + p.width ∧
      m.y + m.height > p.y ∧ m.y < p.y + p.height) :
    (marioCheckPlatformCollision m p prev_y).1.y = p.y - m.height ∧
      (marioCheckPlatformCollision m p prev_y).1.vel_y = 0 := by
  have hv : 0 < m.vel_y := by
    rcases lt_or_eq_of_le hvel with h | h
    · exact h
    · exfalso
      have hy : m.y = prev_y := by rw [hmove, ← h, add_zero]
      have := hov.2.2.1
      rw [hy] at this
      linarith
  unfold marioCheckPlatformCollision
  rw [if_pos hov, if_pos ⟨hprev, hv⟩]
  exact ⟨rfl, rfl⟩

/-- Witness for C1: a concrete falling player landing on a platform top. -/
theorem landing_collision_resolution_witness :
    let m : MarioState := { marioInit with x := 0, y := 85, vel_y := 5 }
    let p : Platform := { x := 0, y := 100, width := 16, height := 16, block_type := "brick" }
    (marioCheckPlatformCollision m p 80).1.y = p.y - m.height ∧
      (marioCheckPlatformCollision m p 80).1.vel_y = 0 :=
  landing_collision_resolution _ _ 80 (by norm_num [marioInit])
    (by norm_num [marioInit, MARIO_HEIGHT]) (by norm_num [marioInit])
    (by norm_num [marioInit, MARIO_WIDTH, MARIO_HEIGHT])

/-! ## Enemy physics (`Enemy.update`, `Enemy.stomp`) -/

def enemyInit (x y : ℚ) : EnemyState :=
  { x := x, y := y, width := ENEMY_WIDTH, height := ENEMY_HEIGHT,
    vel_x := -1, vel_y := 0, alive := true, on_ground := false,
    sprite_frame := 0, frame_counter := 0 }

/-- The landing loop of `Enemy.update`: platforms more than 100 away in x are
skipped; the first platform whose top band catches the enemy's bottom while
falling resolves the landing and breaks the loop. -/
def enemyLand (e : EnemyState) : List Platform → EnemyState
  | [] => e
  | p :: ps =>
    if |p.x - e.x| > 100 then enemyLand e ps
    else if e.x + e.width > p.x ∧ e.x < p.x + p.width ∧ e.vel_y ≥ 0 ∧
        e.y + e.height ≥ p.y ∧ e.y + e.height ≤ p.y + p.height + 5 then
      { e with y := p.y - e.height, vel_y := 0, on_ground := true }
    else enemyLand e ps

/-- The wall loop of `Enemy.update`: on horizontal overlap with a platform
while the enemy's bottom is below the platform's bottom, the enemy is pushed
flush against the platform edge on the side it came from and its horizontal
velocity is negated; the loop breaks after the first bump. -/
def enemyWall (e : EnemyState) : List Platform → EnemyState
  | [] => e
  | p :: ps =>
    if |p.x - e.x| > 100 then enemyWall e ps
    else if e.x + e.width > p.x ∧ e.x < p.x + p.width then
      if e.y + e.height > p.y + p.height then
        let e1 := if e.vel_x > 0 then { e with x := p.x - e.width }
          else { e with x := p.x + p.width }
        { e1 with vel_x := e1.vel_x * (-1) }
      else enemyWall e ps
    else enemyWall e ps

/-- The animation-frame step of `Enemy.update`. -/
def enemyAnim (e : EnemyState) : EnemyState :=
  let fc := e.frame_counter + 1
  if fc ≥ 15 then { e with sprite_frame := 1 - e.sprite_frame, frame_counter := 0 }
  else { e with frame_counter := fc }

/-- Embedding of `Enemy.update(platforms)`: dead enemies do nothing and return `false`;
otherwise patrol motion, gravity, landing, wall bumps, animation, and finally
`true` (remove me) exactly when the enemy has fallen 50 pixels past the
bottom of the screen. -/
def enemyUpdate (e : EnemyState) (platforms : List Platform) : EnemyState × Bool :=
  if e.alive = false then (e, false)
  else
    let e1 := { e with x := e.x + e.vel_x }
    let e2 := { e1 with vel_y := e1.vel_y + GRAVITY }
    let e3 := { e2 with y := e2.y + e2.vel_y }
    let e4 := enemyLand { e3 with on_ground := false } platforms
    let e5 := enemyWall e4 platforms
    let e6 := enemyAnim e5
    if e6.y > DISPLAY_HEIGHT + 50 then (e6, true) else (e6, false)

/-- Embedding of `Enemy.stomp()`. -/
def enemyStomp (e : EnemyState) : EnemyState := { e with alive := false }

/-- Claim C4: `Enemy.update(platforms)` returns `true` (signaling removal
from the level's enemy list) exactly when the enemy is alive and its updated
vertical position exceeds the screen height by the fixed 50-pixel margin —
never otherwise — and a stomp eliminates the enemy from the live set by
clearing its `alive` flag. -/
theorem enemy_removal_spec (e : EnemyState) (ps : List Platform) :
    ((enemyUpdate e ps).2 = true ↔
      e.alive = true ∧ (enemyUpdate e ps).1.y > DISPLAY_HEIGHT + 50) ∧
    (enemyStomp e).alive = false := by
  constructor
  · unfold enemyUpdate
    cases halive : e.alive with
    | false => simp [halive]
    | true =>
      simp only [halive]
      rw [if_neg (by decide)]
      split
      · next h => simpa using h
      · next h => simpa using h
  · rfl

/-- Claim C9 counterexample: a left-moving enemy (`vel_x = -1`) that
horizontally overlaps a platform while its bottom is below the platform's
bottom edge is repositioned to the platform's RIGHT edge
(`platform.x + platform.width = 116`), not to the platform's left edge minus
the enemy width (`platform.x - width = 84`) as the claim states. -/
theorem enemy_wall_bump_left_counterexample :
    let p : Platform := { x := 100, y := 50, width := 16, height := 16, block_type := "brick" }
    let e : EnemyState := enemyInit 110 100
    (enemyUpdate e [p]).1.x = 116 ∧ (enemyUpdate e [p]).1.vel_x = 1 ∧
      ¬((enemyUpdate e [p]).1.x = p.x - e.width) := by
  norm_num [enemyUpdate, enemyLand, enemyWall, enemyAnim, enemyInit,
    GRAVITY, DISPLAY_HEIGHT, ENEMY_WIDTH, ENEMY_HEIGHT]

/-- Claim C9 (amended): for an enemy moving left (`vel_x < 0`) that
horizontally overlaps a nearby platform while vertically below the platform's
bottom edge, the wall-bump resolution flips the sign of its horizontal
velocity and repositions it flush against the platform's RIGHT edge: the
enemy's `x` becomes `platform.x + platform.width` at the moment of
reversal. -/
theorem enemy_wall_bump_left_amended (e : EnemyState) (p : Platform)
    (ps : List Platform)
    (hnear : ¬(|p.x - e.x| > 100))
    (hov : e.x + e.width > p.x ∧ e.x < p.x + p.width)
    (hbelow : e.y + e.height > p.y + p.height)
    (hvel : e.vel_x < 0) :
    (enemyWall e (p :: ps)).x = p.x + p.width ∧
      (enemyWall e (p :: ps)).vel_x = -e.vel_x := by
  unfold enemyWall
  rw [if_neg hnear, if_pos hov, if_pos hbelow, if_neg (not_lt.mpr (le_of_lt hvel))]
  exact ⟨rfl, mul_neg_one _⟩

/-- Witness for the amended C9 at a concrete left-moving enemy. -/
theorem enemy_wall_bump_left_amended_witness :
    let p : Platform := { x := 100, y := 50, width := 16, height := 16, block_type := "brick" }
    let e : EnemyState := enemyInit 105 100
    (enemyWall e [p]).x = p.x + p.width ∧ (enemyWall e [p]).vel_x = -e.vel_x :=
  enemy_wall_bump_left_amended _ _ []
    (by norm_num [enemyInit])
    (by norm_num [enemyInit, ENEMY_WIDTH])
    (by norm_num [enemyInit, ENEMY_HEIGHT])
    (by norm_num [enemyInit])

/-! ## IMU controller (`IMUController.update`, `IMUController.poll_button_only`)

The jump button is active low: the pressed level is the negation of the raw
pin value.  `imuUpdate` takes the calibrated accelerometer x reading, the raw
pin value, and the raw capacitive-touch value of this poll. -/

def imuInit : ImuState :=
  { offset_x := 0, prev_jump := true, jump_buffer := false,
    jump_buffer_frames := 0, left := false, right := false, jump := false,
    run := false, tilt_value := 0, touch_available := true }

/-- The tilt part of `IMUController.update`: calibration offset, deadzone
collapse to exactly 0, then linear normalization by the max-tilt constant
clamped at magnitude 1, with the sign setting the left/right flags. -/
def imuTiltPhase (s : ImuState) (accel_x : ℚ) : ImuState :=
  let adjusted := accel_x - s.offset_x
  if |adjusted| < TILT_DEADZONE then
    { s with tilt_value := 0, left := false, right := false }
  else if adjusted > 0 then
    { s with tilt_value := min 1 ((adjusted - TILT_DEADZONE) / TILT_MAX),
             right := true, left := false }
  else
    { s with tilt_value := max (-1) ((adjusted + TILT_DEADZONE) / TILT_MAX),
             left := true, right := false }

/-- The button part of `IMUController.update`: edge detection arms a 3-frame
buffer; while the buffer is active the jump flag is set and the buffer
counter decremented, clearing flag and buffer on expiry. -/
def imuButtonPhase (s : ImuState) (pin : Bool) : ImuState :=
  let current := !pin
  let s1 := if current = true ∧ s.prev_jump = false then
      { s with jump_buffer := true, jump_buffer_frames := 3 }
    else s
  let s2 := { s1 with prev_jump := current }
  if s2.jump_buffer = true then
    let f := s2.jump_buffer_frames - 1
    if f ≤ 0 then { s2 with jump := false, jump_buffer := false, jump_buffer_frames := f }
    else { s2 with jump := true, jump_buffer_frames := f }
  else { s2 with jump := false }

/-- The capacitive-touch part of `IMUController.update`. -/
def imuTouchPhase (s : ImuState) (touch : Bool) : ImuState :=
  if s.touch_available = true then { s with run := touch } else { s with run := false }

/-- Embedding of `IMUController.update()`: tilt, then button with buffering, then touch. -/
def imuUpdate (s : ImuState) (accel_x : ℚ) (pin : Bool) (touch : Bool) : ImuState :=
  imuTouchPhase (imuButtonPhase (imuTiltPhase s accel_x) pin) touch

/-- Embedding of `IMUController.poll_button_only()`: edge detection and buffer arming
only, without consuming the buffer. -/
def imuPollButton (s : ImuState) (pin : Bool) : ImuState :=
  let current := !pin
  let s1 := if current = true ∧ s.prev_jump = false then
      { s with jump_buffer := true, jump_buffer_frames := 3 }
    else s
  { s1 with prev_jump := current }

lemma imuTiltPhase_button_fields (s : ImuState) (a : ℚ) :
    (imuTiltPhase s a).prev_jump = s.prev_jump ∧
    (imuTiltPhase s a).jump_buffer = s.jump_buffer ∧
    (imuTiltPhase s a).jump_buffer_frames = s.jump_buffer_frames ∧
    (imuTiltPhase s a).jump = s.jump := by
  unfold imuTiltPhase
  dsimp only
  split
  · exact ⟨rfl, rfl, rfl, rfl⟩
  · split
    · exact ⟨rfl, rfl, rfl, rfl⟩
    · exact ⟨rfl, rfl, rfl, rfl⟩

lemma imuTouchPhase_button_fields (s : ImuState) (t : Bool) :
    (imuTouchPhase s t).prev_jump = s.prev_jump ∧
    (imuTouchPhase s t).jump_buffer = s.jump_buffer ∧
    (imuTouchPhase s t).jump_buffer_frames = s.jump_buffer_frames ∧
    (imuTouchPhase s t).jump = s.jump := by
  unfold imuTouchPhase
  split
  · exact ⟨rfl, rfl, rfl, rfl⟩
  · exact ⟨rfl, rfl, rfl, rfl⟩

/-- Pressing edge (pin low, previous state unpressed): the buffer is armed
with 3 frames and immediately consumed down to 2, the jump flag reads true. -/
lemma imuButtonPhase_edge (s : ImuState) (hp : s.prev_jump = false) :
    (imuButtonPhase s false).prev_jump = true ∧
    (imuButtonPhase s false).jump_buffer = true ∧
    (imuButtonPhase s false).jump_buffer_frames = 2 ∧
    (imuButtonPhase s false).jump = true := by
  norm_num [imuButtonPhase, hp]

/-- Button held after the edge with the buffer still holding more than one
frame: the jump flag stays true and the counter decrements. -/
lemma imuButtonPhase_active (s : ImuState) (hp : s.prev_jump = true)
    (hb : s.jump_buffer = true) (hf : 1 < s.jump_buffer_frames) :
    (imuButtonPhase s false).prev_jump = true ∧
    (imuButtonPhase s false).jump_buffer = true ∧
    (imuButtonPhase s false).jump_buffer_frames = s.jump_buffer_frames - 1 ∧
    (imuButtonPhase s false).jump = true := by
  norm_num [imuButtonPhase, hp, hb]
  rw [if_neg (by omega : ¬(s.jump_buffer_frames ≤ 1))]
  norm_num

/-- Buffer expiry: with at most one frame left, this read clears both the
flag and the buffer. -/
lemma imuButtonPhase_expire (s : ImuState) (hp : s.prev_jump = true)
    (hb : s.jump_buffer = true) (hf : s.jump_buffer_frames ≤ 1) :
    (imuButtonPhase s false).prev_jump = true ∧
    (imuButtonPhase s false).jump_buffer = false ∧
    (imuButtonPhase s false).jump = false := by
  norm_num [imuButtonPhase, hp, hb]
  rw [if_pos hf]
  norm_num

/-- Idle held button: no edge, inactive buffer, the jump flag reads false. -/
lemma imuButtonPhase_idle (s : ImuState) (hp : s.prev_jump = true)
    (hb : s.jump_buffer = false) :
    (imuButtonPhase s false).prev_jump = true ∧
    (imuButtonPhase s false).jump_buffer = false ∧
    (imuButtonPhase s false).jump_buffer_frames = s.jump_buffer_frames ∧
    (imuButtonPhase s false).jump = false := by
  norm_num [imuButtonPhase, hp, hb]

lemma imuUpdate_button_fields (s : ImuState) (a : ℚ) (p t : Bool) :
    (imuUpdate s a p t).prev_jump = (imuButtonPhase (imuTiltPhase s a) p).prev_jump ∧
    (imuUpdate s a p t).jump_buffer = (imuButtonPhase (imuTiltPhase s a) p).jump_buffer ∧
    (imuUpdate s a p t).jump_buffer_frames =
      (imuButtonPhase (imuTiltPhase s a) p).jump_buffer_frames ∧
    (imuUpdate s a p t).jump = (imuButtonPhase (imuTiltPhase s a) p).jump := by
  unfold imuUpdate
  exact imuTouchPhase_button_fields _ t

lemma imuUpdate_edge (s : ImuState) (a : ℚ) (t : Bool) (hp : s.prev_jump = false) :
    (imuUpdate s a false t).prev_jump = true ∧
    (imuUpdate s a false t).jump_buffer = true ∧
    (imuUpdate s a false t).jump_buffer_frames = 2 ∧
    (imuUpdate s a false t).jump = true := by
  obtain ⟨f1, f2, f3, f4⟩ := imuUpdate_button_fields s a false t
  obtain ⟨g1, g2, g3, g4⟩ := imuTiltPhase_button_fields s a
  obtain ⟨h1, h2, h3, h4⟩ := imuButtonPhase_edge (imuTiltPhase s a) (g1.trans hp)
  exact ⟨f1.trans h1, f2.trans h2, f3.trans h3, f4.trans h4⟩

lemma imuUpdate_active (s : ImuState) (a : ℚ) (t : Bool) (hp : s.prev_jump = true)
    (hb : s.jump_buffer = true) (hf : 1 < s.jump_buffer_frames) :
    (imuUpdate s a false t).prev_jump = true ∧
    (imuUpdate s a false t).jump_buffer = true ∧
    (imuUpdate s a false t).jump_buffer_frames = s.jump_buffer_frames - 1 ∧
    (imuUpdate s a false t).jump = true := by
  obtain ⟨f1, f2, f3, f4⟩ := imuUpdate_button_fields s a false t
  obtain ⟨g1, g2, g3, g4⟩ := imuTiltPhase_button_fields s a
  obtain ⟨h1, h2, h3, h4⟩ := imuButtonPhase_active (imuTiltPhase s a)
    (g1.trans hp) (g2.trans hb) (by rw [g3]; exact hf)
  exact ⟨f1.trans h1, f2.trans h2, f3.trans (h3.trans (by rw [g3])), f4.trans h4⟩

lemma imuUpdate_expire (s : ImuState) (a : ℚ) (t : Bool) (hp : s.prev_jump = true)
    (hb : s.jump_buffer = true) (hf : s.jump_buffer_frames ≤ 1) :
    (imuUpdate s a false t).prev_jump = true ∧
    (imuUpdate s a false t).jump_buffer = false ∧
    (imuUpdate s a false t).jump = false := by
  obtain ⟨f1, f2, f3, f4⟩ := imuUpdate_button_fields s a false t
  obtain ⟨g1, g2, g3, g4⟩ := imuTiltPhase_button_fields s a
  obtain ⟨h1, h2, h3⟩ := imuButtonPhase_expire (imuTiltPhase s a)
    (g1.trans hp) (g2.trans hb) (by rw [g3]; exact hf)
  exact ⟨f1.trans h1, f2.trans h2, f4.trans h3⟩

lemma imuUpdate_idle (s : ImuState) (a : ℚ) (t : Bool) (hp : s.prev_jump = true)
    (hb : s.jump_buffer = false) :
    (imuUpdate s a false t).prev_jump = true ∧
    (imuUpdate s a false t).jump_buffer = false ∧
    (imuUpdate s a false t).jump = false := by
  obtain ⟨f1, f2, f3, f4⟩ := imuUpdate_button_fields s a false t
  obtain ⟨g1, g2, g3, g4⟩ := imuTiltPhase_button_fields s a
  obtain ⟨h1, h2, h3, h4⟩ := imuButtonPhase_idle (imuTiltPhase s a)
    (g1.trans hp) (g2.trans hb)
  exact ⟨f1.trans h1, f2.trans h2, f4.trans h4⟩

lemma imuPollButton_edge (s : ImuState) (hp : s.prev_jump = false) :
    (imuPollButton s false).prev_jump = true ∧
    (imuPollButton s false).jump_buffer = true ∧
    (imuPollButton s false).jump_buffer_frames = 3 := by
  norm_num [imuPollButton, hp]

/-- Claim C2 counterexample: starting from the controller's initial state,
one poll with the button released and then a single physical press (pin low
on every following poll, a single press edge) makes the `jump` flag read
`true` on TWO consecutive `update()` calls — refuting that the flag reads
true exactly once per press edge and then false until the next edge. -/
theorem jump_reported_twice_counterexample :
    ((imuUpdate (imuUpdate imuInit 0 true false) 0 false false).jump = true) ∧
    ((imuUpdate (imuUpdate (imuUpdate imuInit 0 true false) 0 false false)
        0 false false).jump = true) := by
  have h0 : (imuUpdate imuInit 0 true false).prev_jump = false ∧
      (imuUpdate imuInit 0 true false).jump_buffer = false := by
    norm_num [imuUpdate, imuTiltPhase, imuButtonPhase, imuTouchPhase, imuInit,
      TILT_DEADZONE]
  have h1 := imuUpdate_edge (imuUpdate imuInit 0 true false) 0 false h0.1
  have h2 := imuUpdate_active (imuUpdate (imuUpdate imuInit 0 true false) 0 false false)
    0 false h1.1 h1.2.1 (by rw [h1.2.2.1]; norm_num)
  exact ⟨h1.2.2.2, h2.2.2.2⟩

/-- Claim C2 (amended): a press edge arms the 3-frame jump buffer, and the
`jump` flag then reads `true` on exactly the next TWO `update()` calls (not
once), after which it reads `false` on every subsequent `update()` until the
button is released and a fresh press edge occurs.  This holds whether the
edge is seen by `update()` itself or by an interleaved `poll_button_only()`
call within the buffer window. -/
theorem jump_buffer_true_for_two_updates (s : ImuState) (a1 a2 a3 a4 : ℚ)
    (t1 t2 t3 t4 : Bool) (hb : s.jump_buffer = false) (hp : s.prev_jump = false) :
    ((imuUpdate s a1 false t1).jump = true) ∧
    ((imuUpdate (imuUpdate s a1 false t1) a2 false t2).jump = true) ∧
    ((imuUpdate (imuUpdate (imuUpdate s a1 false t1) a2 false t2) a3 false t3).jump
      = false) ∧
    ((imuUpdate (imuUpdate (imuUpdate (imuUpdate s a1 false t1) a2 false t2)
        a3 false t3) a4 false t4).jump = false) ∧
    ((imuUpdate (imuPollButton s false) a1 false t1).jump = true) ∧
    ((imuUpdate (imuUpdate (imuPollButton s false) a1 false t1) a2 false t2).jump
      = true) ∧
    ((imuUpdate (imuUpdate (imuUpdate (imuPollButton s false) a1 false t1)
        a2 false t2) a3 false t3).jump = false) := by
  have h1 := imuUpdate_edge s a1 t1 hp
  have h2 := imuUpdate_active (imuUpdate s a1 false t1) a2 t2 h1.1 h1.2.1
    (by rw [h1.2.2.1]; norm_num)
  have h3 := imuUpdate_expire (imuUpdate (imuUpdate s a1 false t1) a2 false t2)
    a3 t3 h2.1 h2.2.1 (by rw [h2.2.2.1, h1.2.2.1]; norm_num)
  have h4 := imuUpdate_idle (imuUpdate (imuUpdate (imuUpdate s a1 false t1)
      a2 false t2) a3 false t3) a4 t4 h3.1 h3.2.1
  have q0 := imuPollButton_edge s hp
  have q1 := imuUpdate_active (imuPollButton s false) a1 t1 q0.1 q0.2.1
    (by rw [q0.2.2]; norm_num)
  have q2 := imuUpdate_active (imuUpdate (imuPollButton s false) a1 false t1)
    a2 t2 q1.1 q1.2.1 (by rw [q1.2.2.1, q0.2.2]; norm_num)
  have q3 := imuUpdate_expire (imuUpdate (imuUpdate (imuPollButton s false)
      a1 false t1) a2 false t2) a3 t3 q2.1 q2.2.1
    (by rw [q2.2.2.1, q1.2.2.1, q0.2.2]; norm_num)
  exact ⟨h1.2.2.2, h2.2.2.2, h3.2.2, h4.2.2, q1.2.2.2, q2.2.2.2, q3.2.2⟩

/-- Witness for the amended C2 at the concrete initial controller state
(after one released poll so the edge can fire). -/
theorem jump_buffer_true_for_two_updates_witness :
    ((imuUpdate imuInit 0 true false).jump_buffer = false ∧
      (imuUpdate imuInit 0 true false).prev_jump = false) ∧
    ((imuUpdate (imuUpdate imuInit 0 true false) 0 false false).jump = true) ∧
    ((imuUpdate (imuUpdate (imuUpdate imuInit 0 true false) 0 false false)
        0 false false).jump = true) ∧
    ((imuUpdate (imuUpdate (imuUpdate (imuUpdate imuInit 0 true false)
        0 false false) 0 false false) 0 false false).jump = false) := by
  have h0 : (imuUpdate imuInit 0 true false).jump_buffer = false ∧
      (imuUpdate imuInit 0 true false).prev_jump = false := by
    norm_num [imuUpdate, imuTiltPhase, imuButtonPhase, imuTouchPhase, imuInit,
      TILT_DEADZONE]
  have h := jump_buffer_true_for_two_updates (imuUpdate imuInit 0 true false)
    0 0 0 0 false false false false h0.1 h0.2
  exact ⟨h0, h.1, h.2.1, h.2.2.1⟩

/-! ## Claim C8: tilt normalization -/

lemma imuButtonPhase_tilt_fields (s : ImuState) (p : Bool) :
    (imuButtonPhase s p).tilt_value = s.tilt_value ∧
    (imuButtonPhase s p).left = s.left ∧
    (imuButtonPhase s p).right = s.right := by
  unfold imuButtonPhase
  dsimp only
  repeat' split
  all_goals exact ⟨rfl, rfl, rfl⟩

lemma imuTouchPhase_tilt_fields (s : ImuState) (t : Bool) :
    (imuTouchPhase s t).tilt_value = s.tilt_value ∧
    (imuTouchPhase s t).left = s.left ∧
    (imuTouchPhase s t).right = s.right := by
  unfold imuTouchPhase
  split
  · exact ⟨rfl, rfl, rfl⟩
  · exact ⟨rfl, rfl, rfl⟩

lemma imuTiltPhase_spec (s : ImuState) (accel : ℚ) :
    (|accel - s.offset_x| < TILT_DEADZONE →
      (imuTiltPhase s accel).tilt_value = 0 ∧
      (imuTiltPhase s accel).left = false ∧ (imuTiltPhase s accel).right = false) ∧
    (TILT_DEADZONE ≤ accel - s.offset_x →
      (imuTiltPhase s accel).tilt_value =
        min 1 ((accel - s.offset_x - TILT_DEADZONE) / TILT_MAX) ∧
      (imuTiltPhase s accel).right = true ∧ (imuTiltPhase s accel).left = false) ∧
    (accel - s.offset_x ≤ -TILT_DEADZONE →
      (imuTiltPhase s accel).tilt_value =
        max (-1) ((accel - s.offset_x + TILT_DEADZONE) / TILT_MAX) ∧
      (imuTiltPhase s accel).left = true ∧ (imuTiltPhase s accel).right = false) ∧
    (-1 ≤ (imuTiltPhase s accel).tilt_value ∧ (imuTiltPhase s accel).tilt_value ≤ 1) := by
  refine ⟨fun h => ?_, fun h => ?_, fun h => ?_, ?_⟩
  · unfold imuTiltPhase
    dsimp only
    rw [if_pos h]
    exact ⟨rfl, rfl, rfl⟩
  · unfold imuTiltPhase
    dsimp only
    rw [if_neg (not_lt.mpr (le_trans h (le_abs_self _))),
      if_pos (lt_of_lt_of_le (by norm_num [TILT_DEADZONE]) h)]
    exact ⟨rfl, rfl, rfl⟩
  · unfold imuTiltPhase
    dsimp only
    rw [if_neg (not_lt.mpr (le_abs.mpr (Or.inr (by linarith)))),
      if_neg (not_lt.mpr (by norm_num [TILT_DEADZONE] at h ⊢; linarith))]
    exact ⟨rfl, rfl, rfl⟩
  · unfold imuTiltPhase
    dsimp only
    split
    · norm_num
    · split
      · next hdz hpos =>
        have hge : TILT_DEADZONE ≤ accel - s.offset_x := by
          rcases abs_cases (accel - s.offset_x) with ⟨he, _⟩ | ⟨he, _⟩
          · rw [he] at hdz; linarith [not_lt.mp hdz]
          · linarith
        constructor
        · refine le_min (by norm_num) ?_
          have : (0:ℚ) ≤ (accel - s.offset_x - TILT_DEADZONE) / TILT_MAX := by
            apply div_nonneg <;> norm_num [TILT_MAX]
            linarith
          linarith
        · exact min_le_left _ _
      · next hdz hpos =>
        constructor
        · exact le_max_left _ _
        · refine max_le (by norm_num) ?_
          rw [div_le_one (by norm_num [TILT_MAX])]
          norm_num [TILT_DEADZONE, TILT_MAX]
          linarith [not_lt.mp hpos]

/-- Claim C8: `IMUController.update` maps the calibrated reading
`adjusted = accel_x - offset_x` so that readings within the deadzone yield a
tilt value of exactly 0 with both direction flags false; readings at or
beyond the deadzone yield the remaining magnitude divided by the max-tilt
constant, clamped so the tilt value always lies in `[-1, 1]`, with the sign
of the reading determining the left/right flags. -/
theorem tilt_normalization (s : ImuState) (accel : ℚ) (pin touch : Bool) :
    (|accel - s.offset_x| < TILT_DEADZONE →
      (imuUpdate s accel pin touch).tilt_value = 0 ∧
      (imuUpdate s accel pin touch).left = false ∧
      (imuUpdate s accel pin touch).right = false) ∧
    (TILT_DEADZONE ≤ accel - s.offset_x →
      (imuUpdate s accel pin touch).tilt_value =
        min 1 ((accel - s.offset_x - TILT_DEADZONE) / TILT_MAX) ∧
      (imuUpdate s accel pin touch).right = true ∧
      (imuUpdate s accel pin touch).left = false) ∧
    (accel - s.offset_x ≤ -TILT_DEADZONE →
      (imuUpdate s accel pin touch).tilt_value =
        max (-1) ((accel - s.offset_x + TILT_DEADZONE) / TILT_MAX) ∧
      (imuUpdate s accel pin touch).left = true ∧
      (imuUpdate s accel pin touch).right = false) ∧
    (-1 ≤ (imuUpdate s accel pin touch).tilt_value ∧
      (imuUpdate s accel pin touch).tilt_value ≤ 1) := by
  have hpres : (imuUpdate s accel pin touch).tilt_value =
      (imuTiltPhase s accel).tilt_value ∧
      (imuUpdate s accel pin touch).left = (imuTiltPhase s accel).left ∧
      (imuUpdate s accel pin touch).right = (imuTiltPhase s accel).right := by
    obtain ⟨u1, u2, u3⟩ := imuTouchPhase_tilt_fields
      (imuButtonPhase (imuTiltPhase s accel) pin) touch
    obtain ⟨v1, v2, v3⟩ := imuButtonPhase_tilt_fields (imuTiltPhase s accel) pin
    exact ⟨u1.trans v1, u2.trans v2, u3.trans v3⟩
  obtain ⟨e1, e2, e3⟩ := hpres
  obtain ⟨w1, w2, w3, w4⟩ := imuTiltPhase_spec s accel
  rw [e1, e2, e3]
  exact ⟨w1, w2, w3, w4⟩

/-- Witness for C8: a strong rightward reading (adjusted = 5) yields a tilt
value of `min 1 ((5 - 0.8)/6) = 0.7` with the right flag set. -/
theorem tilt_normalization_witness :
    TILT_DEADZONE ≤ (5:ℚ) - imuInit.offset_x ∧
    ((imuUpdate imuInit 5 true false).tilt_value =
      min 1 (((5:ℚ) - imuInit.offset_x - TILT_DEADZONE) / TILT_MAX) ∧
    (imuUpdate imuInit 5 true false).right = true ∧
    (imuUpdate imuInit 5 true false).left = false) :=
  ⟨by norm_num [imuInit, TILT_DEADZONE],
    (tilt_normalization imuInit 5 true false).2.1
      (by norm_num [imuInit, TILT_DEADZONE])⟩

/-! ## Level construction (`Level.create_level`) -/

def initialPlatforms : List Platform :=
  ((List.range 138).map (fun i =>
      { x := 16 * (i:ℚ), y := GROUND_Y + 15, width := BLOCK_SIZE,
        height := BLOCK_SIZE, block_type := "brick" }))
  ++ ([200, 250, 300].map (fun x =>
      { x := x, y := 70, width := BLOCK_SIZE, height := BLOCK_SIZE,
        block_type := "question" }))
  ++ ((List.range 10).map (fun i =>
      { x := 400 + 16 * (i:ℚ), y := 80, width := BLOCK_SIZE,
        height := BLOCK_SIZE, block_type := "brick" }))
  ++ ((List.range 7).map (fun i =>
      { x := 700 + 16 * (i:ℚ), y := 60, width := BLOCK_SIZE,
        height := BLOCK_SIZE, block_type := "brick" }))
  ++ [{ x := 900, y := 90, width := BLOCK_SIZE, height := BLOCK_SIZE * 3,
        block_type := "pipe" }]
  ++ ((List.range 10).map (fun i =>
      { x := 1100 + 16 * (i:ℚ), y := 70, width := BLOCK_SIZE,
        height := BLOCK_SIZE, block_type := "brick" }))
  ++ ((List.range 10).map (fun i =>
      { x := 1400 + 16 * (i:ℚ), y := GROUND_Y - 16 * (i:ℚ), width := BLOCK_SIZE,
        height := BLOCK_SIZE, block_type := "brick" }))
  ++ ((List.range 13).map (fun i =>
      { x := 1700 + 16 * (i:ℚ), y := 50, width := BLOCK_SIZE,
        height := BLOCK_SIZE, block_type := "brick" }))
  ++ [{ x := 2050, y := 70, width := BLOCK_SIZE, height := BLOCK_SIZE * 2,
        block_type := "pipe" }]

def initialEnemies : List EnemyState :=
  [150, 350, 600, 950, 1200, 1500, 1800].map (fun x => enemyInit x GROUND_Y)

def initialCoins : List Coin :=
  ([225, 275, 475, 525].map (fun x => { x := x, y := 50, collected := false }))
  ++ [{ x := 750, y := 30, collected := false },
      { x := 1175, y := 50, collected := false },
      { x := 1450, y := 30, collected := false },
      { x := 1750, y := 30, collected := false }]

/-! ## Session state (`MarioGame`) -/

structure GameState where
  mario : MarioState
  camera : CameraState
  platforms : List Platform
  enemies : List EnemyState
  coins : List Coin
  imu : ImuState
  score : ℕ
  coin_count : ℕ
  lives : ℤ
  game_over : Bool
  level_complete : Bool
  victory_timer : ℕ
deriving DecidableEq, Repr

/-- One frame's worth of raw hardware inputs: the pin value seen by the
`poll_button_only` call at the start of `MarioGame.update`, the
accelerometer reading and pin/touch values seen by `IMUController.update`. -/
structure FrameInput where
  pin1 : Bool
  accel : ℚ
  pin2 : Bool
  touch : Bool
deriving DecidableEq, Repr

/-- One step of the coin sweep in `MarioGame.update`: an uncollected coin
overlapping the player is collected, incrementing the coin count and adding
200 to the score. -/
def coinStep (mx my mw mh : ℚ) (c : Coin) (score coins : ℕ) : Coin × ℕ × ℕ :=
  if c.collected = false ∧
      check_collision mx my mw mh c.x c.y 8 14 = true then
    ({ c with collected := true }, score + 200, coins + 1)
  else (c, score, coins)

/-- The full coin sweep of `MarioGame.update` over the level's coin list. -/
def processCoins (mx my mw mh : ℚ) :
    List Coin → ℕ → ℕ → List Coin × ℕ × ℕ
  | [], s, k => ([], s, k)
  | c :: cs, s, k =>
    let r := coinStep mx my mw mh c s k
    let rest := processCoins mx my mw mh cs r.2.1 r.2.2
    (r.1 :: rest.1, rest.2.1, rest.2.2)

/-- The enemy sweep of `MarioGame.update`: each enemy is updated; enemies
whose update returns `true` are removed from the list; otherwise, if the
enemy is alive, the player is not invincible and their boxes overlap, either
a stomp (falling player above the enemy: enemy eliminated, +100 score,
upward bounce) or damage (life lost, 120 invincibility frames, game over at
zero lives) is applied. -/
def processEnemies (ps : List Platform) :
    List EnemyState → MarioState → ℕ → ℤ → Bool →
      List EnemyState × MarioState × ℕ × ℤ × Bool
  | [], m, score, lives, go => ([], m, score, lives, go)
  | e :: es, m, score, lives, go =>
    let r := enemyUpdate e ps
    if r.2 = true then processEnemies ps es m score lives go
    else
      if r.1.alive = true ∧ m.invincible = 0 ∧
          check_collision m.x m.y m.width m.height r.1.x r.1.y r.1.width r.1.height
            = true then
        if m.vel_y > 0 ∧ m.y < r.1.y then
          let rest := processEnemies ps es { m with vel_y := -6 } (score + 100) lives go
          (enemyStomp r.1 :: rest.1, rest.2)
        else
          let lives1 := lives - 1
          let go1 := if lives1 ≤ 0 then true else go
          let rest := processEnemies ps es { m with invincible := 120 } score lives1 go1
          (r.1 :: rest.1, rest.2)
      else
        let rest := processEnemies ps es m score lives go
        (r.1 :: rest.1, rest.2)

/-- The enemy sweep with every player interaction suppressed: pure physics
update and removal of fallen enemies. -/
def enemySweep (ps : List Platform) : List EnemyState → List EnemyState
  | [] => []
  | e :: es =>
    let r := enemyUpdate e ps
    if r.2 = true then enemySweep ps es else r.1 :: enemySweep ps es

/-- The fall-death check at the end of `MarioGame.update`: if the player's y
exceeds the display height, a life is lost; at zero lives the game ends,
otherwise the player respawns at the start with invincibility. -/
def fallDeathStep (m : MarioState) (lives : ℤ) (go : Bool) :
    MarioState × ℤ × Bool :=
  if m.y > DISPLAY_HEIGHT then
    let lives1 := lives - 1
    if lives1 ≤ 0 then (m, lives1, true)
    else ({ m with x := 40, y := GROUND_Y, invincible := 120 }, lives1, go)
  else (m, lives, go)

/-- The IMU state after the frame's `poll_button_only` and
`IMUController.update` calls. -/
def imuAfter (gs : GameState) (inp : FrameInput) : ImuState :=
  imuUpdate (imuPollButton gs.imu inp.pin1) inp.accel inp.pin2 inp.touch

/-- The player state after `Mario.update` this frame (with `is_running`
taken from the controller, as the session sets it before the update). -/
def marioAfterInput (gs : GameState) (inp : FrameInput) : MarioState :=
  marioUpdate { gs.mario with is_running := (imuAfter gs inp).run }
    (imuAfter gs inp) gs.platforms

/-- The enemy sweep applied to this frame's state. -/
def enemyPhase (gs : GameState) (inp : FrameInput) :
    List EnemyState × MarioState × ℕ × ℤ × Bool :=
  processEnemies gs.platforms gs.enemies (marioAfterInput gs inp) gs.score
    gs.lives gs.game_over

/-- The player state after the enemy sweep (stomp bounce / damage
invincibility applied). -/
def marioAfterEnemies (gs : GameState) (inp : FrameInput) : MarioState :=
  (enemyPhase gs inp).2.1

/-- Embedding of `MarioGame.reset_level()`: fresh level, player and camera, zeroed score
and coin count, three lives, all flags cleared (the IMU controller is not
reset). -/
def resetState (gs : GameState) : GameState :=
  { gs with
    platforms := initialPlatforms, enemies := initialEnemies,
    coins := initialCoins, mario := marioInit, camera := cameraInit,
    score := 0, coin_count := 0, lives := 3, game_over := false,
    level_complete := false, victory_timer := 0 }

/-- The Playing-state body of `MarioGame.update`: input, player physics,
camera, enemy sweep with interactions, coin sweep, level-completion check,
fall-death check. -/
def playingUpdate (gs : GameState) (inp : FrameInput) : GameState :=
  let er := enemyPhase gs inp
  let m2 := marioAfterEnemies gs inp
  let cr := processCoins m2.x m2.y m2.width m2.height gs.coins er.2.2.1 gs.coin_count
  let fd := fallDeathStep m2 er.2.2.2.1 er.2.2.2.2
  { gs with
    imu := imuAfter gs inp,
    camera := cameraUpdate gs.camera (marioAfterInput gs inp).x,
    mario := fd.1,
    enemies := er.1,
    coins := cr.1,
    score := cr.2.1,
    coin_count := cr.2.2,
    lives := fd.2.1,
    game_over := fd.2.2,
    level_complete :=
      if gs.level_complete = false ∧ 2075 ≤ m2.x then true else gs.level_complete,
    victory_timer :=
      if gs.level_complete = false ∧ 2075 ≤ m2.x then 180 else gs.victory_timer }

/-- Embedding of `MarioGame.update()`: a game-over state is frozen; during the victory
screen only the victory timer counts down, resetting the level when it
reaches zero; otherwise the full Playing-state frame body runs. -/
def gameUpdate (gs : GameState) (inp : FrameInput) : GameState :=
  if gs.game_over = true then gs
  else if gs.level_complete = true ∧ 0 < gs.victory_timer then
    if gs.victory_timer - 1 = 0 then resetState gs
    else { gs with victory_timer := gs.victory_timer - 1 }
  else playingUpdate gs inp

/-- A small concrete session state over an empty level, used to instantiate
session-level theorems at concrete inputs. -/
def gsSmall : GameState :=
  { mario := marioInit, camera := cameraInit, platforms := [], enemies := [],
    coins := [], imu := imuInit, score := 0, coin_count := 0, lives := 3,
    game_over := false, level_complete := false, victory_timer := 0 }

/-- A frame input with the board level and no button or touch activity. -/
def inpIdle : FrameInput :=
  { pin1 := true, accel := 0, pin2 := true, touch := false }

/-! ## Claim C5: coin collection -/

lemma coinStep_already_collected (mx my mw mh : ℚ) (c : Coin) (s k : ℕ)
    (h : c.collected = true) : coinStep mx my mw mh c s k = (c, s, k) := by
  unfold coinStep
  rw [if_neg]
  rintro ⟨h1, _⟩
  rw [h] at h1
  exact Bool.noConfusion h1

lemma coinStep_mono (mx my mw mh : ℚ) (c : Coin) (s k : ℕ)
    (h : c.collected = true) : (coinStep mx my mw mh c s k).1.collected = true := by
  unfold coinStep
  split
  · rfl
  · exact h

lemma processCoins_mono (mx my mw mh : ℚ) (cs : List Coin) (s k : ℕ) :
    List.Forall₂ (fun c c2 => c.collected = true → c2.collected = true) cs
      (processCoins mx my mw mh cs s k).1 := by
  induction cs generalizing s k with
  | nil => exact List.Forall₂.nil
  | cons c cs ih =>
    unfold processCoins
    exact List.Forall₂.cons (fun h => coinStep_mono mx my mw mh c s k h) (ih _ _)

/-- Claim C5: a coin's `collected` flag only ever changes from false to true
across the session's coin sweep (never reverts within a level instance), and
colliding the player with an already-collected coin changes neither the
score nor the coin count (and leaves the coin unchanged). -/
theorem coin_collection_monotone_and_idempotent (mx my mw mh : ℚ) :
    (∀ (c : Coin) (s k : ℕ), c.collected = true →
      coinStep mx my mw mh c s k = (c, s, k)) ∧
    (∀ (cs : List Coin) (s k : ℕ),
      List.Forall₂ (fun c c2 => c.collected = true → c2.collected = true) cs
        (processCoins mx my mw mh cs s k).1) :=
  ⟨fun c s k h => coinStep_already_collected mx my mw mh c s k h,
   fun cs s k => processCoins_mono mx my mw mh cs s k⟩

/-- Witness for C5: an already-collected coin at the player's position
leaves score and coin count untouched. -/
theorem coin_collection_monotone_and_idempotent_witness :
    (Coin.mk 40 105 true).collected = true ∧
    coinStep 40 105 16 16 (Coin.mk 40 105 true) 5 7 = (Coin.mk 40 105 true, 5, 7) :=
  ⟨rfl, (coin_collection_monotone_and_idempotent 40 105 16 16).1 _ 5 7 rfl⟩

/-! ## Claim C6: invincibility -/

lemma marioMovePhase_invincible (m : MarioState) (ctrl : ImuState) :
    (marioMovePhase m ctrl).invincible =
      if 0 < m.invincible then m.invincible - 1 else m.invincible := by
  simp only [marioMovePhase, apply_ite MarioState.invincible, ite_self]

lemma marioCheckPlatformCollision_invincible (m : MarioState) (p : Platform)
    (py : ℚ) : (marioCheckPlatformCollision m p py).1.invincible = m.invincible := by
  unfold marioCheckPlatformCollision
  repeat' split
  all_goals rfl

lemma marioResolvePlatforms_invincible (py : ℚ) (ps : List Platform)
    (m : MarioState) :
    (marioResolvePlatforms m py ps).invincible = m.invincible := by
  induction ps with
  | nil => rfl
  | cons p ps ih =>
    unfold marioResolvePlatforms
    split
    · exact ih
    · dsimp only
      split
      · exact marioCheckPlatformCollision_invincible m p py
      · exact ih

lemma marioGroundClamp_invincible (m : MarioState) :
    (marioGroundClamp m).invincible = m.invincible := by
  unfold marioGroundClamp
  split
  · rfl
  · rfl

lemma marioUpdate_invincible (m : MarioState) (ctrl : ImuState)
    (ps : List Platform) :
    (marioUpdate m ctrl ps).invincible =
      if 0 < m.invincible then m.invincible - 1 else m.invincible := by
  unfold marioUpdate
  dsimp only
  rw [marioGroundClamp_invincible, marioResolvePlatforms_invincible]
  exact marioMovePhase_invincible m ctrl

lemma processEnemies_suppressed (ps : List Platform) (es : List EnemyState)
    (m : MarioState) (score : ℕ) (lives : ℤ) (go : Bool)
    (h : m.invincible ≠ 0) :
    processEnemies ps es m score lives go = (enemySweep ps es, m, score, lives, go) := by
  induction es with
  | nil => rfl
  | cons e es ih =>
    unfold processEnemies enemySweep
    dsimp only
    split
    · exact ih
    · rw [if_neg (fun hc => h hc.2.1), ih]

/-- Claim C6: when positive, the player's invincibility counter strictly
decreases (by exactly one) during `Mario.update`; and while it is positive
the enemy sweep applies no damage transition at all: no life decrement, no
stomp, no change to the player, score, lives or game-over flag — the
enemies just run their physics. -/
theorem invincibility_decrements_and_suppresses_damage (m : MarioState)
    (ctrl : ImuState) (ps : List Platform) (es : List EnemyState) (score : ℕ)
    (lives : ℤ) (go : Bool) (h : 0 < m.invincible) :
    (marioUpdate m ctrl ps).invincible = m.invincible - 1 ∧
    processEnemies ps es m score lives go =
      (enemySweep ps es, m, score, lives, go) := by
  constructor
  · rw [marioUpdate_invincible, if_pos h]
  · exact processEnemies_suppressed ps es m score lives go (by omega)

/-- Witness for C6 with five invincibility frames and one live enemy. -/
theorem invincibility_decrements_and_suppresses_damage_witness :
    0 < ({ marioInit with invincible := 5 } : MarioState).invincible ∧
    ((marioUpdate { marioInit with invincible := 5 } imuInit []).invincible =
      ({ marioInit with invincible := 5 } : MarioState).invincible - 1 ∧
    processEnemies [] [enemyInit 150 GROUND_Y]
        { marioInit with invincible := 5 } 0 3 false =
      (enemySweep [] [enemyInit 150 GROUND_Y],
        { marioInit with invincible := 5 }, 0, 3, false)) :=
  ⟨by norm_num [marioInit],
   invincibility_decrements_and_suppresses_damage _ imuInit [] _ 0 3 false
     (by norm_num [marioInit])⟩

/-! ## Claim C7: level-completion lifecycle -/

/-- Claim C7: when the player's x first reaches the fixed 2075 threshold in
a Playing frame, `level_complete` becomes true and the 180-frame victory
timer starts (the `not level_complete` guard makes this fire exactly once
per level instance); on every later frame while the timer is positive the
frame performs no simulation work at all — the state is unchanged except
for the timer decrement — and when the timer hits zero the level is reset
to its initial entity/score/life state. -/
theorem level_completion_lifecycle (gs : GameState) (inp : FrameInput) :
    (gs.game_over = false → gs.level_complete = true → 0 < gs.victory_timer →
      gs.victory_timer ≠ 1 →
      gameUpdate gs inp = { gs with victory_timer := gs.victory_timer - 1 }) ∧
    (gs.game_over = false → gs.level_complete = true → gs.victory_timer = 1 →
      gameUpdate gs inp = resetState gs) ∧
    (gs.game_over = false → gs.level_complete = false →
      2075 ≤ (marioAfterEnemies gs inp).x →
      (gameUpdate gs inp).level_complete = true ∧
      (gameUpdate gs inp).victory_timer = 180) ∧
    ((resetState gs).score = 0 ∧ (resetState gs).coin_count = 0 ∧
      (resetState gs).lives = 3 ∧ (resetState gs).mario = marioInit ∧
      (resetState gs).enemies = initialEnemies ∧
      (resetState gs).coins = initialCoins ∧
      (resetState gs).level_complete = false ∧
      (resetState gs).victory_timer = 0) := by
  refine ⟨fun hgo hlc hvt hne => ?_, fun hgo hlc hvt => ?_,
    fun hgo hlc hx => ?_, ⟨rfl, rfl, rfl, rfl, rfl, rfl, rfl, rfl⟩⟩
  · unfold gameUpdate
    rw [if_neg (by simp [hgo]), if_pos ⟨hlc, hvt⟩, if_neg (by omega)]
  · unfold gameUpdate
    rw [if_neg (by simp [hgo]), if_pos ⟨hlc, by omega⟩, if_pos (by omega)]
  · unfold gameUpdate
    rw [if_neg (by simp [hgo]), if_neg (by simp [hlc])]
    unfold playingUpdate
    dsimp only
    refine ⟨?_, ?_⟩ <;> rw [if_pos ⟨hlc, hx⟩]

/-- Witness for C7: countdown, reset and trigger at concrete small states. -/
theorem level_completion_lifecycle_witness :
    (({ gsSmall with level_complete := true, victory_timer := 5 } : GameState).game_over
        = false ∧
      gameUpdate { gsSmall with level_complete := true, victory_timer := 5 } inpIdle =
        { ({ gsSmall with level_complete := true, victory_timer := 5 } : GameState) with
          victory_timer :=
            ({ gsSmall with level_complete := true, victory_timer := 5 } : GameState).victory_timer
              - 1 }) ∧
    (gameUpdate { gsSmall with level_complete := true, victory_timer := 1 } inpIdle =
      resetState { gsSmall with level_complete := true, victory_timer := 1 }) ∧
    (2075 ≤ (marioAfterEnemies
        { gsSmall with mario := { marioInit with x := 2100 } } inpIdle).x ∧
      (gameUpdate { gsSmall with mario := { marioInit with x := 2100 } }
        inpIdle).level_complete = true ∧
      (gameUpdate { gsSmall with mario := { marioInit with x := 2100 } }
        inpIdle).victory_timer = 180) := by
  have hx : 2075 ≤ (marioAfterEnemies
      { gsSmall with mario := { marioInit with x := 2100 } } inpIdle).x := by
    norm_num [marioAfterEnemies, enemyPhase, processEnemies, marioAfterInput,
      marioUpdate, marioMovePhase, marioResolvePlatforms, marioGroundClamp,
      imuAfter, imuUpdate, imuTiltPhase, imuButtonPhase, imuTouchPhase,
      imuPollButton, marioInit, imuInit, gsSmall, inpIdle, TILT_DEADZONE,
      GRAVITY, GROUND_Y, JUMP_STRENGTH, MOVE_SPEED, RUN_SPEED]
  refine ⟨⟨rfl, ?_⟩, ?_, hx, ?_⟩
  · exact (level_completion_lifecycle _ inpIdle).1 rfl rfl (by norm_num [gsSmall])
      (by norm_num [gsSmall])
  · exact (level_completion_lifecycle _ inpIdle).2.1 rfl rfl rfl
  · exact (level_completion_lifecycle _ inpIdle).2.2.1 rfl rfl hx

/-! ## Claim C10: ground clamp prevents fall death -/

lemma processEnemies_mario_y (ps : List Platform) (es : List EnemyState)
    (m : MarioState) (score : ℕ) (lives : ℤ) (go : Bool) :
    ((processEnemies ps es m score lives go).2.1).y = m.y := by
  induction es generalizing m score lives go with
  | nil => rfl
  | cons e es ih =>
    unfold processEnemies
    dsimp only
    split
    · exact ih m score lives go
    · split
      · split
        · exact ih { m with vel_y := -6 } (score + 100) lives go
        · exact ih { m with invincible := 120 } score (lives - 1) _
      · exact ih m score lives go

/-- Claim C10: for every `Mario.update` call whose pre-state has
`y <= GROUND_Y`, the post-state also satisfies `y <= GROUND_Y` (the hard
ground plane clamps the player every frame), and consequently the session's
fall-death check (`player y > DISPLAY_HEIGHT`) never fires on the player
state produced by the frame's update, so no life is ever lost to falling
below the screen. -/
theorem ground_clamp_prevents_fall_death (m : MarioState) (ctrl : ImuState)
    (ps : List Platform) (gs : GameState) (inp : FrameInput) (lives : ℤ)
    (go : Bool) (h : m.y ≤ GROUND_Y) :
    (marioUpdate m ctrl ps).y ≤ GROUND_Y ∧
    fallDeathStep (marioAfterEnemies gs inp) lives go =
      (marioAfterEnemies gs inp, lives, go) := by
  refine ⟨marioUpdate_y_le m ctrl ps, ?_⟩
  have hy : (marioAfterEnemies gs inp).y ≤ GROUND_Y := by
    unfold marioAfterEnemies enemyPhase
    rw [processEnemies_mario_y]
    exact marioUpdate_y_le _ _ _
  unfold fallDeathStep
  rw [if_neg (not_lt.mpr (le_trans hy (by norm_num [GROUND_Y, DISPLAY_HEIGHT])))]

/-- Witness for C10 at the initial player standing on the ground plane. -/
theorem ground_clamp_prevents_fall_death_witness :
    marioInit.y ≤ GROUND_Y ∧
    ((marioUpdate marioInit imuInit []).y ≤ GROUND_Y ∧
      fallDeathStep (marioAfterEnemies gsSmall inpIdle) 3 false =
        (marioAfterEnemies gsSmall inpIdle, 3, false)) :=
  ⟨by norm_num [marioInit],
   ground_clamp_prevents_fall_death marioInit imuInit [] gsSmall inpIdle 3 false
     (by norm_num [marioInit])⟩

/-- Claim C3: for every sequence of `Camera.update` calls starting from the
initial camera state, and for every player x argument (including x beyond the
world bounds), the camera offset `Camera.x` stays within
`[0, world_width - viewport_width] = [0, 2200 - 240]`. -/
theorem camera_offset_always_in_bounds (xs : List ℚ) :
    0 ≤ (cameraRun xs).x ∧ (cameraRun xs).x ≤ 2200 - DISPLAY_WIDTH := by
  unfold cameraRun
  exact cameraRun_invariant xs cameraInit rfl (by norm_num [cameraInit])
    (by norm_num [cameraInit, DISPLAY_WIDTH])

end SMB
